import Mathlib

/-!
Verification of the Hessian 1.0.2 deserializer (mustaine/parser.py) against
its natural-language specification.  The Python source is shallowly embedded:
Python 2 byte strings are lists of natural numbers (one per byte), the
in-memory stream cursor is threaded explicitly, and every Python exception
surfaces as an explicit error value.  Recursive decoders take a fuel
parameter; the top-level entry point supplies fuel exceeding the stream
length, which the source loop structure never exhausts.
-/

/-- A Python 2 byte string: one natural number (0..255) per byte. -/
abbrev Str := List Nat

/-- Every way a parse can stop abnormally.  ParseError sites in parser.py are
distinguished by their message; Python exceptions of other classes that can
escape the parser (NotImplementedError at tag R, TypeError from calling the
no-argument _read_binary with an argument, struct.error from unpack on a
wrong-sized buffer, UnicodeDecodeError from str.decode) get their own
constructors so that the error class reaching the caller is visible. -/
inductive PErr where
  | duplicateHeader
  | badVersion
  | invalidMarker
  | illegalMethodInReply
  | duplicateMethodName
  | illegalFaultInCall
  | extraObject
  | eos
  | expectedTerminal
  | unknownMarker
  | expectedString
  | unsupportedBackRef
  | pyTypeError
  | structError
  | unicodeError
  | outOfFuel
deriving DecidableEq, Repr

/-- Result of running one decoder step: an error, or a value plus the
remaining stream. -/
abbrev Res (α : Type) := Except PErr (α × Str)

/-- Sequencing of decoder steps (explicit bind, kept as a plain function so
proofs can unfold it). -/
def bindR {α β : Type} (r : Res α) (f : α → Str → Res β) : Res β :=
  match r with
  | .error e => .error e
  | .ok (a, s) => f a s

/-- Lift a stream-independent computation into a decoder step. -/
def liftE {α : Type} (e : Except PErr α) (s : Str) : Res α :=
  match e with
  | .error x => .error x
  | .ok a => .ok (a, s)

/-- Parser._read: r = stream.read(n) (cStringIO semantics: returns at most n
bytes, fewer at end of stream); raises the end-of-stream ParseError exactly
when len(r) == 0 — also when n == 0, and never on a nonempty partial read. -/
def pyRead (n : Nat) (s : Str) : Res Str :=
  let r := s.take n
  if r.length = 0 then .error .eos else .ok (r, s.drop n)

/-- A single-byte read, yielding the byte itself (self._read(1)). -/
def read1 (s : Str) : Res Nat :=
  match pyRead 1 s with
  | .error e => .error e
  | .ok ([c], s1) => .ok (c, s1)
  | .ok (_, _) => .error .structError

/-- struct.unpack of a big-endian unsigned 16-bit value; struct.error unless
the buffer is exactly 2 bytes. -/
def unpackU16 : Str → Except PErr Nat
  | [a, b] => .ok (a * 256 + b)
  | _ => .error .structError

/-- Two's-complement reinterpretation of an unsigned value below w. -/
def toSigned (n w : Nat) : Int :=
  if n < w / 2 then (n : Int) else (n : Int) - (w : Int)

/-- struct.unpack of a big-endian signed 32-bit value. -/
def unpackI32 : Str → Except PErr Int
  | [a, b, c, d] =>
      .ok (toSigned (((a * 256 + b) * 256 + c) * 256 + d) (2 ^ 32))
  | _ => .error .structError

/-- struct.unpack of a big-endian signed 64-bit value. -/
def unpackI64 : Str → Except PErr Int
  | [a, b, c, d, e, f, g, h] =>
      .ok (toSigned (((((((a * 256 + b) * 256 + c) * 256 + d) * 256 + e)
        * 256 + f) * 256 + g) * 256 + h) (2 ^ 64))
  | _ => .error .structError

/-- struct.unpack of a big-endian 64-bit pattern kept as raw bits (the IEEE
float64 payload of tag D is carried uninterpreted). -/
def unpackU64 : Str → Except PErr Nat
  | [a, b, c, d, e, f, g, h] =>
      .ok (((((((a * 256 + b) * 256 + c) * 256 + d) * 256 + e)
        * 256 + f) * 256 + g) * 256 + h)
  | _ => .error .structError

/-- str.lower on a single ASCII byte. -/
def lowerByte (c : Nat) : Nat :=
  if 65 ≤ c ∧ c ≤ 90 then c + 32 else c

/-- Decoded Python values produced by the parser.  Text keeps its UTF-8
bytes; dictionaries are association lists in insertion order where a later
entry shadows an earlier one with the same key (Python 2 dicts are unordered
hash maps, so only this lookup semantics is modelled). -/
inductive Value where
  | none
  | bool (b : Bool)
  | int (i : Int)
  | long (i : Int)
  | float (bits : Nat)
  | date (secs : Int)
  | str (bytes : Str)
  | binary (bytes : Str)
  | list (xs : List Value)
  | tuple (xs : List Value)
  | dict (entries : List (Value × Value))
  | remote (ty : Option Str) (url : Value)
  | magic (ty : Str) (fields : List (Str × Value))
  | fault (entries : List (Value × Value))

/-- Python truthiness of a decoded value, as used by the source's bare
`if self._result.value:` tests.  Builtin kinds follow Python semantics; for
float, bits of positive or negative IEEE zero are falsy.  Modelled from the
spec: Binary, Remote, Fault and the typed-record class are plain data
carriers with no truthiness override, hence always truthy. -/
def truthy : Value → Bool
  | .none => false
  | .bool b => b
  | .int i => decide (i ≠ 0)
  | .long i => decide (i ≠ 0)
  | .float u => decide (u ≠ 0 ∧ u ≠ 2 ^ 63)
  | .date _ => true
  | .str b => !b.isEmpty
  | .binary _ => true
  | .list xs => !xs.isEmpty
  | .tuple xs => !xs.isEmpty
  | .dict ps => !ps.isEmpty
  | .remote _ _ => true
  | .magic _ _ => true
  | .fault _ => true

/-- Python truthiness of an attribute that is None or a byte string
(Call.method, the map type name): None and the empty string are falsy. -/
def mTruthy : Option Str → Bool
  | Option.none => false
  | some b => !b.isEmpty

/-- Decimal text of an integer, as Python str() renders int/long keys. -/
def intDigits (i : Int) : Str :=
  (toString i).data.map Char.toNat

/-- Modelled from the spec: typed-map keys are coerced to their text form
(spec 4.6, "every key is coerced to its text form").  Text keys keep their
bytes, primitive keys take their Python textual form; coercion of composite
keys is abstracted (no claim depends on it). -/
def pyStr : Value → Str
  | .str b => b
  | .bool true => [84, 114, 117, 101]
  | .bool false => [70, 97, 108, 115, 101]
  | .none => [78, 111, 110, 101]
  | .int i => intDigits i
  | .long i => intDigits i
  | _ => []

/-- UTF-8 continuation byte (0x80..0xBF). -/
def isCont (b : Nat) : Bool :=
  decide (128 ≤ b ∧ b ≤ 191)

/-- Validity of a byte run under the Python 2 utf-8 codec, which the source
invokes as ''.join(bytes).decode('utf-8'): standard UTF-8 sequence shapes,
with surrogate code points accepted as the Python 2 codec does. -/
def validUtf8 : Str → Bool
  | [] => true
  | c :: rest =>
    if c ≤ 127 then validUtf8 rest
    else
      match rest with
      | [] => false
      | b1 :: r1 =>
        if 194 ≤ c ∧ c ≤ 223 then isCont b1 && validUtf8 r1
        else
          match r1 with
          | [] => false
          | b2 :: r2 =>
            if c = 224 then
              decide (160 ≤ b1 ∧ b1 ≤ 191) && isCont b2 && validUtf8 r2
            else if 225 ≤ c ∧ c ≤ 239 then
              isCont b1 && isCont b2 && validUtf8 r2
            else
              match r2 with
              | [] => false
              | b3 :: r3 =>
                if c = 240 then
                  decide (144 ≤ b1 ∧ b1 ≤ 191) && isCont b2 && isCont b3
                    && validUtf8 r3
                else if 241 ≤ c ∧ c ≤ 243 then
                  isCont b1 && isCont b2 && isCont b3 && validUtf8 r3
                else if c = 244 then
                  decide (128 ≤ b1 ∧ b1 ≤ 143) && isCont b2 && isCont b3
                    && validUtf8 r3
                else false

/-- The character loop of Parser._read_string: for each of the declared
count of characters, read one leading byte and classify it with Python's
`ord(byte) in range(lo, hi)` tests, whose upper bounds are exclusive
(0x00..0x7E, 0xC2..0xDE, 0xE0..0xEE, 0xF0..0xF3); a classified leading byte
is accumulated together with its continuation bytes, and an unclassified
leading byte is consumed but appended nowhere. -/
def readChars : Nat → Str → Res Str
  | 0, s => .ok ([], s)
  | n + 1, s =>
    bindR (read1 s) fun c s1 =>
    if c ≤ 126 then
      bindR (readChars n s1) fun bs s2 => .ok (c :: bs, s2)
    else if 194 ≤ c ∧ c ≤ 222 then
      bindR (pyRead 1 s1) fun e s2 =>
      bindR (readChars n s2) fun bs s3 => .ok (c :: (e ++ bs), s3)
    else if 224 ≤ c ∧ c ≤ 238 then
      bindR (pyRead 2 s1) fun e s2 =>
      bindR (readChars n s2) fun bs s3 => .ok (c :: (e ++ bs), s3)
    else if 240 ≤ c ∧ c ≤ 243 then
      bindR (pyRead 3 s1) fun e s2 =>
      bindR (readChars n s2) fun bs s3 => .ok (c :: (e ++ bs), s3)
    else
      readChars n s1

/-- Parser._read_string: a 2-byte big-endian character count, the character
loop, then a UTF-8 decode of the accumulated run (UnicodeDecodeError escapes
when the run is malformed). -/
def readString (s : Str) : Res Value :=
  bindR (pyRead 2 s) fun r s1 =>
  bindR (liftE (unpackU16 r) s1) fun n s2 =>
  bindR (readChars n s2) fun bs s3 =>
  if validUtf8 bs then .ok (.str bs, s3) else .error .unicodeError

/-- Parser._read_binary: a 2-byte big-endian byte length, then one raw read
of that many bytes wrapped as an opaque Binary value. -/
def readBinary (s : Str) : Res Value :=
  bindR (pyRead 2 s) fun r s1 =>
  bindR (liftE (unpackU16 r) s1) fun n s2 =>
  bindR (pyRead n s2) fun bs s3 => .ok (.binary bs, s3)

/-- Parser._read_date: 8 bytes unpacked as a big-endian signed 64-bit
millisecond count, converted with Python 2 integer division
(timestamp / 1000 floors) to whole seconds; the resulting
datetime.fromtimestamp value is modelled by its epoch-second argument. -/
def readDate (s : Str) : Res Value :=
  bindR (pyRead 8 s) fun r s1 =>
  bindR (liftE (unpackI64 r) s1) fun q s2 =>
  .ok (.date (Int.fdiv q 1000), s2)

/-- The method-name read of the 'm' branch:
self._read(unpack('>H', self._read(2))[0]). -/
def readMethod (s : Str) : Res Str :=
  bindR (pyRead 2 s) fun r s1 =>
  bindR (liftE (unpackU16 r) s1) fun n s2 =>
  pyRead n s2

/-- Python string concatenation as used for chunked strings
(fragment + continuation); both operands are text in every reachable use,
and any other combination would raise TypeError in Python. -/
def strConcat (frag cont : Value) (s : Str) : Res Value :=
  match frag, cont with
  | .str a, .str b => .ok (.str (a ++ b), s)
  | _, _ => .error .pyTypeError

mutual

/-- Parser._read_object: tag dispatch over all value kinds, transcribing the
source's cascading equality checks.  Tag bytes: N=78 T=84 F=70 I=73 L=76
D=68 d=100 s=115 x=120 S=83 X=88 b=98 B=66 r=114 R=82 V=86 M=77.
In the s/x branch a matching lower-cased continuation tag recurses and
concatenates; in the b branch a matching continuation tag makes the source
call self._read_binary(next), passing an argument to a method that accepts
none, which raises TypeError, and a non-matching tag falls out of the elif
chain so the function returns Python None.  Tag R raises
NotImplementedError. -/
def readObject : Nat → Nat → Str → Res Value
  | 0, _, _ => .error .outOfFuel
  | fuel + 1, code, s =>
    if code = 78 then .ok (.none, s)
    else if code = 84 then .ok (.bool true, s)
    else if code = 70 then .ok (.bool false, s)
    else if code = 73 then
      bindR (pyRead 4 s) fun r s1 =>
      bindR (liftE (unpackI32 r) s1) fun i s2 => .ok (.int i, s2)
    else if code = 76 then
      bindR (pyRead 8 s) fun r s1 =>
      bindR (liftE (unpackI64 r) s1) fun i s2 => .ok (.long i, s2)
    else if code = 68 then
      bindR (pyRead 8 s) fun r s1 =>
      bindR (liftE (unpackU64 r) s1) fun u s2 => .ok (.float u, s2)
    else if code = 100 then readDate s
    else if code = 115 ∨ code = 120 then
      bindR (readString s) fun frag s1 =>
      bindR (read1 s1) fun nx s2 =>
      if lowerByte nx = code then
        bindR (readObject fuel nx s2) fun cont s3 => strConcat frag cont s3
      else .error .expectedTerminal
    else if code = 83 ∨ code = 88 then readString s
    else if code = 98 then
      bindR (readBinary s) fun _ s1 =>
      bindR (read1 s1) fun nx s2 =>
      if lowerByte nx = 98 then .error .pyTypeError
      else .ok (.none, s2)
    else if code = 66 then readBinary s
    else if code = 114 then readRemote fuel s
    else if code = 82 then .error .unsupportedBackRef
    else if code = 86 then readList fuel s
    else if code = 77 then readMap fuel s
    else .error .unknownMarker

/-- Parser._read_remote: an optional t-tag (2-byte length then that many
type-name bytes), then a tag that must be s or S, decoded as the URL. -/
def readRemote : Nat → Str → Res Value
  | 0, _ => .error .outOfFuel
  | fuel + 1, s =>
    bindR (read1 s) fun c0 s1 =>
    bindR
      (if c0 = 116 then
        bindR (pyRead 2 s1) fun r s2 =>
        bindR (liftE (unpackU16 r) s2) fun n s3 =>
        bindR (pyRead n s3) fun t s4 =>
        bindR (read1 s4) fun c1 s5 => .ok ((some t, c1), s5)
      else .ok ((Option.none, c0), s1))
      fun tc s2 =>
    if tc.2 ≠ 115 ∧ tc.2 ≠ 83 then .error .expectedString
    else
      bindR (readObject fuel tc.2 s2) fun url s3 =>
      .ok (.remote tc.1 url, s3)

/-- Parser._read_list: an optional t-tag whose type name is read and
discarded, an optional l-tag whose 4-byte count is read and discarded but
switches the result from a growable list to a tuple, then members until the
terminator tag z=122. -/
def readList : Nat → Str → Res Value
  | 0, _ => .error .outOfFuel
  | fuel + 1, s =>
    bindR (read1 s) fun c0 s1 =>
    bindR
      (if c0 = 116 then
        bindR (pyRead 2 s1) fun r s2 =>
        bindR (liftE (unpackU16 r) s2) fun n s3 =>
        bindR (pyRead n s3) fun _ s4 => read1 s4
      else .ok (c0, s1))
      fun c1 s2 =>
    if c1 = 108 then
      bindR (pyRead 4 s2) fun _ s3 =>
      bindR (read1 s3) fun c2 s4 =>
      bindR (readSeq fuel c2 s4) fun ms s5 => .ok (.tuple ms, s5)
    else
      bindR (readSeq fuel c1 s2) fun ms s3 => .ok (.list ms, s3)

/-- The member loop shared textually by _read_list:
while code != 'z': members.append(self._read_object(code)); code = read(1). -/
def readSeq : Nat → Nat → Str → Res (List Value)
  | 0, _, _ => .error .outOfFuel
  | fuel + 1, code, s =>
    if code = 122 then .ok ([], s)
    else
      bindR (readObject fuel code s) fun v s1 =>
      bindR (read1 s1) fun c s2 =>
      bindR (readSeq fuel c s2) fun ms s3 => .ok (v :: ms, s3)

/-- Parser._read_map: an optional t-tag whose type name, when present and
nonempty, turns the result into a typed record; then key/value pairs until
the terminator. -/
def readMap : Nat → Str → Res Value
  | 0, _ => .error .outOfFuel
  | fuel + 1, s =>
    bindR (read1 s) fun c0 s1 =>
    bindR
      (if c0 = 116 then
        bindR (pyRead 2 s1) fun r s2 =>
        bindR (liftE (unpackU16 r) s2) fun n s3 =>
        bindR (pyRead n s3) fun t s4 =>
        bindR (read1 s4) fun c1 s5 => .ok ((some t, c1), s5)
      else .ok ((Option.none, c0), s1))
      fun tc s2 =>
    readMapPairs fuel tc.1 tc.2 [] s2

/-- The pair loop of _read_map.  Pairs accumulate in read order; the final
cast applies str() to every key exactly when the type name is truthy, as the
source's per-iteration `fields[str(key)] = value` does. -/
def readMapPairs : Nat → Option Str → Nat → List (Value × Value) → Str →
    Res Value
  | 0, _, _, _, _ => .error .outOfFuel
  | fuel + 1, cast, code, acc, s =>
    if code = 122 then
      if mTruthy cast then
        .ok (.magic (cast.getD []) (acc.map fun kv => (pyStr kv.1, kv.2)), s)
      else .ok (.dict acc, s)
    else
      bindR (readKeyval fuel (some code) s) fun kv s1 =>
      bindR (read1 s1) fun c s2 =>
      readMapPairs fuel cast c (acc ++ [kv]) s2

/-- Parser._read_keyval: decode a key from the supplied first tag (or a
freshly read one), then a value from a freshly read tag. -/
def readKeyval : Nat → Option Nat → Str → Res (Value × Value)
  | 0, _, _ => .error .outOfFuel
  | fuel + 1, first, s =>
    bindR (match first with
           | some c => .ok (c, s)
           | Option.none => read1 s) fun ck s1 =>
    bindR (readObject fuel ck s1) fun k s2 =>
    bindR (read1 s2) fun cv s3 =>
    bindR (readObject fuel cv s3) fun v s4 =>
    .ok ((k, v), s4)

/-- Parser._read_fault: exactly three key/value pairs, assigned onto a Fault
data carrier; the carrier is modelled from the spec (spec 4.7) as the
ordered pair list. -/
def readFault : Nat → Str → Res Value
  | 0, _ => .error .outOfFuel
  | fuel + 1, s =>
    bindR (readKeyval fuel Option.none s) fun kv1 s1 =>
    bindR (readKeyval fuel Option.none s1) fun kv2 s2 =>
    bindR (readKeyval fuel Option.none s2) fun kv3 s3 =>
    .ok (.fault [kv1, kv2, kv3], s3)

end

/-- The in-progress Call entity.  Modelled from the spec: Call is a plain
data carrier (spec 3) created empty — headers mapping, optional method name
(initially None), append-only args. -/
structure CallV where
  headers : List (Value × Value)
  method : Option Str
  args : List Value

/-- The in-progress Reply entity.  Modelled from the spec: Reply is a plain
data carrier (spec 3) created with an unset value; in Python the unset value
attribute is None, indistinguishable under truthiness from a decoded null,
so it is modelled directly as a Value initialised to null. -/
structure ReplyV where
  headers : List (Value × Value)
  value : Value

/-- The envelope under construction (self._result once set). -/
inductive Env where
  | call (c : CallV)
  | reply (r : ReplyV)

/-- Header insertion: self._result.headers[key] = value.  Appended; later
entries shadow earlier ones with the same key (dict assignment). -/
def envAddHeader (env : Env) (kv : Value × Value) : Env :=
  match env with
  | .call c => .call { c with headers := c.headers ++ [kv] }
  | .reply r => .reply { r with headers := r.headers ++ [kv] }

/-- Parser.parse_stream's while-loop, one iteration per leading tag byte.
Tag bytes: c=99 r=114 H=72 m=109 f=102 z=122.  The duplicate-header test
`if self._result:` is modelled as presence of the envelope (Modelled from
the spec: Call/Reply instances are plain data-carrier objects, hence
truthy); the duplicate-method and extra-value tests are the source's bare
truthiness checks on the stored attribute. -/
def parseLoop : Nat → Option Env → Str → Res Env
  | 0, _, _ => .error .outOfFuel
  | fuel + 1, st, s =>
    bindR (read1 s) fun code s1 =>
    if code = 99 then
      if st.isSome then .error .duplicateHeader
      else
        bindR (pyRead 2 s1) fun v s2 =>
        if v = [1, 0] then parseLoop fuel (some (.call ⟨[], Option.none, []⟩)) s2
        else .error .badVersion
    else if code = 114 then
      if st.isSome then .error .duplicateHeader
      else
        bindR (pyRead 2 s1) fun v s2 =>
        if v = [1, 0] then parseLoop fuel (some (.reply ⟨[], .none⟩)) s2
        else .error .badVersion
    else
      match st with
      | Option.none => .error .invalidMarker
      | some env =>
        if code = 72 then
          bindR (readKeyval fuel Option.none s1) fun kv s2 =>
          parseLoop fuel (some (envAddHeader env kv)) s2
        else if code = 109 then
          match env with
          | .reply _ => .error .illegalMethodInReply
          | .call c =>
            if mTruthy c.method then .error .duplicateMethodName
            else
              bindR (readMethod s1) fun name s2 =>
              parseLoop fuel (some (.call { c with method := some name })) s2
        else if code = 102 then
          match env with
          | .call _ => .error .illegalFaultInCall
          | .reply r =>
            if truthy r.value then .error .extraObject
            else
              bindR (readFault fuel s1) fun f s2 =>
              parseLoop fuel (some (.reply { r with value := f })) s2
        else if code = 122 then .ok (env, s1)
        else
          match env with
          | .call c =>
            bindR (readObject fuel code s1) fun v s2 =>
            parseLoop fuel (some (.call { c with args := c.args ++ [v] })) s2
          | .reply r =>
            if truthy r.value then .error .extraObject
            else
              bindR (readObject fuel code s1) fun v s2 =>
              parseLoop fuel (some (.reply { r with value := v })) s2

/-- Parser.parse_stream on a fully buffered byte string: run the loop from
the empty state; the returned envelope is the parse result.  The fuel
argument bounds loop iterations and recursion depth; each iteration and
each recursion level first consumes at least one byte, so length + 1 always
suffices for the source's behavior. -/
def parse_stream (s : Str) : Except PErr Env :=
  match parseLoop (s.length + 1) Option.none s with
  | .error e => .error e
  | .ok (env, _) => .ok env

/-- Sequencing a successful step runs the continuation on the rest. -/
theorem bindR_ok {α β : Type} (a : α) (s : Str) (f : α → Str → Res β) :
    bindR (Except.ok (a, s)) f = f a s := rfl

/-- Sequencing after a failed step propagates the failure. -/
theorem bindR_error {α β : Type} (e : PErr) (f : α → Str → Res β) :
    bindR (Except.error e) f = Except.error e := rfl

/-- A one-byte read from a nonempty stream yields its head. -/
theorem read1_cons (c : Nat) (s : Str) : read1 (c :: s) = Except.ok (c, s) :=
  rfl

/-- Any read from the exhausted stream fails with end-of-stream. -/
theorem pyRead_nil (n : Nat) : pyRead n [] = Except.error PErr.eos := by
  simp [pyRead]

/-- A zero-byte read fails with end-of-stream: stream.read(0) returns the
empty string and the source treats len(r) == 0 as end of stream. -/
theorem pyRead_zero (s : Str) : pyRead 0 s = Except.error PErr.eos := rfl

/-- A two-byte read from a stream holding at least two bytes. -/
theorem pyRead_two_cons (a b : Nat) (s : Str) :
    pyRead 2 (a :: b :: s) = Except.ok ([a, b], s) := rfl

/-- A four-byte read from a stream holding at least four bytes. -/
theorem pyRead_four_cons (a b c d : Nat) (s : Str) :
    pyRead 4 (a :: b :: c :: d :: s) = Except.ok ([a, b, c, d], s) := rfl

/-- Reading exactly the length of a nonempty prefix consumes that prefix. -/
theorem pyRead_append (tn rest : Str) (hne : tn ≠ []) :
    pyRead tn.length (tn ++ rest) = Except.ok (tn, rest) := by
  have h0 : tn.length ≠ 0 := fun h => hne (List.length_eq_zero.mp h)
  simp [pyRead, List.take_left, List.drop_left, h0]

/-- A read never succeeds with an empty result: the len(r) == 0 guard turns
every empty read into the end-of-stream failure. -/
theorem pyRead_ok_ne_nil {n : Nat} {s r s2 : Str}
    (h : pyRead n s = Except.ok (r, s2)) : r ≠ [] := by
  simp only [pyRead] at h
  split at h
  · exact absurd h (by simp)
  · rename_i h0
    rw [Except.ok.injEq, Prod.mk.injEq] at h
    intro hr
    exact h0 (by rw [h.1, hr]; rfl)

/-- C1: on a non-terminal binary chunk whose continuation tag matches, the
source calls self._read_binary(next) — passing an argument to the
no-argument _read_binary — so the parse dies with TypeError instead of
producing the concatenation of the chunk bytes with the recursively
decoded continuation; the wire input b 0x0001 0x58 b exhibits it. -/
theorem c1_binary_chunk_crashes :
    readObject 1 98 [0, 1, 88, 98] = Except.error PErr.pyTypeError := rfl

/-- C2: the character classifier uses Python range() membership whose upper
bound is exclusive, so the boundary leading bytes 0x7F, 0xDF, 0xEF and
0xF4 claimed for the four classes match no class at all: each is consumed
and silently dropped, so a one-character string whose character is 0x7F
(valid ASCII) decodes to the empty string, and 0xDF/0xEF/0xF4 leads are
likewise dropped without their continuation bytes being read. -/
theorem c2_string_classifier_drops_boundary_bytes :
    readString [0, 1, 127] = Except.ok (.str [], [])
    ∧ readString [0, 1, 223] = Except.ok (.str [], [])
    ∧ readString [0, 1, 239] = Except.ok (.str [], [])
    ∧ readString [0, 1, 244] = Except.ok (.str [], []) :=
  ⟨rfl, rfl, rfl, rfl⟩

/-- C3: counterexample.  A stream truncated inside the 2-byte version field
(tag c then a single 0x01 byte) makes the 2-byte read return one byte,
which the version comparison rejects: the parse fails with the
unrecognized-version error, not with UnexpectedEndOfStream as the claim
requires for truncation inside any fixed-width field. -/
theorem c3_truncated_version_wrong_error :
    parse_stream [99, 1] = Except.error PErr.badVersion := rfl

/-- C3 amended: a read that obtains zero bytes fails with
UnexpectedEndOfStream — in particular on the empty stream and at the
missing terminator after a complete envelope header — while a read
satisfied only partially returns the partial bytes without error, so
truncation inside a fixed-width field can instead surface as a different
error kind or as a short value. -/
theorem c3_read_eos_only_on_empty_result (n : Nat) (s : Str)
    (hs : s ≠ []) (hn : s.length ≤ n) :
    pyRead n [] = Except.error PErr.eos
    ∧ pyRead n s = Except.ok (s, [])
    ∧ parse_stream [] = Except.error PErr.eos
    ∧ parse_stream [99, 1, 0] = Except.error PErr.eos := by
  refine ⟨pyRead_nil n, ?_, rfl, rfl⟩
  simp [pyRead, List.take_of_length_le hn, List.drop_of_length_le hn, hs]

/-- C3 amended, witnessed at a concrete short read of 1 byte where 2 were
requested. -/
theorem c3_read_eos_only_on_empty_result_witness :
    pyRead 2 [] = Except.error PErr.eos
    ∧ pyRead 2 [5] = Except.ok ([5], [])
    ∧ parse_stream [] = Except.error PErr.eos
    ∧ parse_stream [99, 1, 0] = Except.error PErr.eos :=
  c3_read_eos_only_on_empty_result 2 [5] (by decide) (by decide)

/-- C4: counterexample.  The extra-value guard is a bare truthiness test,
so after a Reply's value is set to a falsy decoded value (here null from
tag N), a second value tag is accepted and silently overwrites it: parsing
r 0x01 0x00 N T z succeeds with value true instead of failing with
IllegalExtraValue. -/
theorem c4_falsy_value_overwritten :
    parse_stream [114, 1, 0, 78, 84, 122]
      = Except.ok (Env.reply ⟨[], Value.bool true⟩) := rfl

/-- C4 amended: a subsequent value tag or fault tag fails with
IllegalExtraValue exactly when the already-stored Reply value is truthy; a
falsy stored value (null, false, zero, empty text) does not trip the
guard and is silently overwritten. -/
theorem c4_truthy_value_guard (fuel code : Nat) (rv : ReplyV) (s : Str)
    (ht : truthy rv.value = true)
    (h1 : code ≠ 99) (h2 : code ≠ 114) (h3 : code ≠ 72)
    (h4 : code ≠ 109) (h5 : code ≠ 122) (h6 : code ≠ 102) :
    parseLoop (fuel + 1) (some (.reply rv)) (102 :: s)
        = Except.error PErr.extraObject
    ∧ parseLoop (fuel + 1) (some (.reply rv)) (code :: s)
        = Except.error PErr.extraObject := by
  constructor
  · simp [parseLoop, read1_cons, bindR_ok, ht]
  · simp [parseLoop, read1_cons, bindR_ok, ht, h1, h2, h3, h4, h5, h6]

/-- C4 amended, witnessed on a Reply already holding the truthy value true
and a following N value tag. -/
theorem c4_truthy_value_guard_witness :
    parseLoop 1 (some (.reply ⟨[], Value.bool true⟩)) [102]
        = Except.error PErr.extraObject
    ∧ parseLoop 1 (some (.reply ⟨[], Value.bool true⟩)) [78]
        = Except.error PErr.extraObject :=
  c4_truthy_value_guard 0 78 ⟨[], Value.bool true⟩ [] rfl (by decide)
    (by decide) (by decide) (by decide) (by decide) (by decide)

/-- C5: once a Call's method has been set by an m tag it is necessarily a
nonempty name — the method read path can never return an empty string,
since a zero-byte read fails with UnexpectedEndOfStream — and a second m
tag then fails with DuplicateMethodName. -/
theorem c5_second_method_tag_fails (fuel n : Nat) (ns : Str)
    (hdrs : List (Value × Value)) (args : List Value) (s : Str) :
    parseLoop (fuel + 1) (some (.call ⟨hdrs, some (n :: ns), args⟩))
        (109 :: s) = Except.error PErr.duplicateMethodName
    ∧ ∀ t r s2, readMethod t = Except.ok (r, s2) → r ≠ [] := by
  constructor
  · simp [parseLoop, read1_cons, bindR_ok, mTruthy]
  · intro t r s2 h
    simp only [readMethod] at h
    cases h2 : pyRead 2 t with
    | error e => rw [h2, bindR_error] at h; exact absurd h (by simp)
    | ok p =>
      obtain ⟨r2, t1⟩ := p
      rw [h2, bindR_ok] at h
      cases h3 : unpackU16 r2 with
      | error e => rw [h3] at h; simp [liftE, bindR] at h
      | ok k =>
        rw [h3] at h
        simp only [liftE, bindR] at h
        exact pyRead_ok_ne_nil h

/-- C5, witnessed on a Call whose method was set to the one-byte name A. -/
theorem c5_second_method_tag_fails_witness :
    parseLoop 1 (some (.call ⟨[], some [65], []⟩)) [109]
        = Except.error PErr.duplicateMethodName
    ∧ ∀ t r s2, readMethod t = Except.ok (r, s2) → r ≠ [] :=
  c5_second_method_tag_fails 0 65 [] [] [] []

/-- C6: counterexample.  A non-terminal binary chunk whose continuation tag
does not match falls off the end of the b branch without raising: the
decoder returns the null value (Python None), with the mismatched tag
consumed, instead of failing with ExpectedTerminalChunk — here on the wire
input b 0x0001 0x58 T. -/
theorem c6_binary_mismatch_returns_null :
    readObject 1 98 [0, 1, 88, 84] = Except.ok (Value.none, []) := rfl

/-- C6 amended: for the string chunk tags s and x a continuation tag whose
lower-cased form differs from the chunk tag fails with
ExpectedTerminalChunk, but for the binary chunk tag b the same mismatch
silently yields the null value with the mismatched tag consumed. -/
theorem c6_terminal_chunk_guard (fuel na nb nc : Nat)
    (sa sb sc sa2 sb2 sc2 : Str) (va vb vc : Value)
    (hsa : readString sa = Except.ok (va, na :: sa2))
    (hna : lowerByte na ≠ 115)
    (hsc : readString sc = Except.ok (vc, nc :: sc2))
    (hnc : lowerByte nc ≠ 120)
    (hsb : readBinary sb = Except.ok (vb, nb :: sb2))
    (hnb : lowerByte nb ≠ 98) :
    readObject (fuel + 1) 115 sa = Except.error PErr.expectedTerminal
    ∧ readObject (fuel + 1) 120 sc = Except.error PErr.expectedTerminal
    ∧ readObject (fuel + 1) 98 sb = Except.ok (Value.none, sb2) := by
  refine ⟨?_, ?_, ?_⟩
  · simp [readObject, hsa, bindR_ok, read1_cons, hna]
  · simp [readObject, hsc, bindR_ok, read1_cons, hnc]
  · simp [readObject, hsb, bindR_ok, read1_cons, hnb]

/-- C6 amended, witnessed on empty chunks followed by the terminator tag z
as the mismatching continuation. -/
theorem c6_terminal_chunk_guard_witness :
    readObject 1 115 [0, 0, 122] = Except.error PErr.expectedTerminal
    ∧ readObject 1 120 [0, 0, 122] = Except.error PErr.expectedTerminal
    ∧ readObject 1 98 [0, 1, 89, 122] = Except.ok (Value.none, []) :=
  c6_terminal_chunk_guard 0 122 122 122 [0, 0, 122] [0, 1, 89, 122]
    [0, 0, 122] [] [] [] (.str []) (.binary [89]) (.str [])
    rfl (by decide) rfl (by decide) rfl (by decide)

/-- C7: a list carrying the l tag reads and discards the 4-byte declared
count — the result does not depend on those four bytes — marks the result
as a fixed-arity tuple, and its contents are exactly the members the loop
decodes before the terminator, in read order; the same holds when the l
tag follows a typed prefix of any nonzero declared length. -/
theorem c7_fixed_arity_count_discarded (fuel b1 b2 b3 b4 c : Nat)
    (rest s1 s2 : Str) (ms : List Value)
    (h1 : read1 rest = Except.ok (c, s1))
    (h2 : readSeq fuel c s1 = Except.ok (ms, s2)) :
    readList (fuel + 1) (108 :: b1 :: b2 :: b3 :: b4 :: rest)
        = Except.ok (Value.tuple ms, s2)
    ∧ ∀ hb lb : Nat, ∀ tn : Str, tn.length = hb * 256 + lb → tn ≠ [] →
        readList (fuel + 1)
            (116 :: hb :: lb :: (tn ++ 108 :: b1 :: b2 :: b3 :: b4 :: rest))
          = Except.ok (Value.tuple ms, s2) := by
  constructor
  · simp [readList, read1_cons, bindR_ok, pyRead_four_cons, h1, h2]
  · intro hb lb tn htn hne
    have hpy : pyRead (hb * 256 + lb)
        (tn ++ (108 :: b1 :: b2 :: b3 :: b4 :: rest))
        = Except.ok (tn, 108 :: b1 :: b2 :: b3 :: b4 :: rest) := by
      rw [← htn]; exact pyRead_append tn _ hne
    simp [readList, read1_cons, bindR_ok, pyRead_two_cons, unpackU16, liftE,
      hpy, pyRead_four_cons, h1, h2]

/-- C7, witnessed on V l 0x09090909 N z and its typed variant, whose single
member decodes to null regardless of the advisory count 0x09090909. -/
theorem c7_fixed_arity_count_discarded_witness :
    readList 3 [108, 9, 9, 9, 9, 78, 122]
        = Except.ok (Value.tuple [Value.none], [])
    ∧ ∀ hb lb : Nat, ∀ tn : Str, tn.length = hb * 256 + lb → tn ≠ [] →
        readList 3 (116 :: hb :: lb :: (tn ++ [108, 9, 9, 9, 9, 78, 122]))
          = Except.ok (Value.tuple [Value.none], []) :=
  c7_fixed_arity_count_discarded 2 9 9 9 9 78 [78, 122] [122] [] [Value.none]
    rfl rfl

/-- C8: the date decoder divides the unpacked big-endian signed millisecond
count by 1000 with Python 2 integer (floor) division before building the
timestamp, so the sub-second component is discarded: the 8-byte payload
encoding 1500 decodes to the instant at 1 whole second rather than 1.5
seconds, and a compliant encoder's sub-second dates cannot round-trip. -/
theorem c8_date_millis_truncated :
    readObject 1 100 [0, 0, 0, 0, 0, 0, 5, 220]
      = Except.ok (Value.date 1, []) := rfl

/-- C9: wherever a value is expected, tag R dispatches to the dedicated
back-reference failure of the parse-error enumeration — for every stream
content, without consuming anything and without attempting resolution. -/
theorem c9_backref_always_unsupported (fuel : Nat) (s : Str) :
    readObject (fuel + 1) 82 s = Except.error PErr.unsupportedBackRef := by
  simp [readObject]

/-- C10: a declared length of exactly zero at the public interface is
fatal: the underlying read treats a zero-byte result as end of stream even
when zero bytes were requested, so a binary value with byte length 0, a
method tag with length 0, and a typed-list type-name prefix of length 0
each fail with UnexpectedEndOfStream instead of producing an empty
value. -/
theorem c10_zero_length_reads_fail (fuel : Nat) (s : Str)
    (hdrs : List (Value × Value)) (args : List Value) :
    pyRead 0 s = Except.error PErr.eos
    ∧ readBinary (0 :: 0 :: s) = Except.error PErr.eos
    ∧ parseLoop (fuel + 1) (some (.call ⟨hdrs, Option.none, args⟩))
        (109 :: 0 :: 0 :: s) = Except.error PErr.eos
    ∧ readList (fuel + 1) (116 :: 0 :: 0 :: s) = Except.error PErr.eos := by
  refine ⟨rfl, ?_, ?_, ?_⟩
  · simp [readBinary, pyRead_two_cons, bindR_ok, bindR_error, unpackU16,
      liftE, pyRead_zero]
  · simp [parseLoop, read1_cons, bindR_ok, bindR_error, mTruthy, readMethod,
      pyRead_two_cons, unpackU16, liftE, pyRead_zero]
  · simp [readList, read1_cons, bindR_ok, bindR_error, pyRead_two_cons,
      unpackU16, liftE, pyRead_zero]
